import Mathlib

set_option maxRecDepth 4000

/-!
Verification development for the task-automation gateway in `src/main.py`.
The Python string primitives used by the code (`str.split`, `str.strip`,
`str.splitlines`, `str.startswith`, `str.endswith`, `os.path.abspath`) are
embedded as executable Lean functions over `List Char`, and the gateway's
core functions (`is_valid_path`, `run_command`, the `/run` dispatcher
`run_task`, the `/read` handler `read_file`) are translated directly from
the source.  Subprocess execution, the oracle call and the SQLite store are
modelled as explicit inputs (a spawn function, an oracle outcome, a write
outcome and an in-memory history list).
-/

/-- Python's whitespace class used by `str.split()` and `str.strip()`. -/
def pyIsSpace (c : Char) : Bool :=
  c == ' ' || c == '\t' || c == '\n' || c == '\r' || c == '\x0b' || c == '\x0c'

/-- Worker for `str.split()`: split on runs of whitespace, dropping empties. -/
def splitWsAux : List Char → List Char → List String
  | [], cur => if cur = [] then [] else [String.mk cur.reverse]
  | c :: cs, cur =>
    if pyIsSpace c then
      if cur = [] then splitWsAux cs []
      else String.mk cur.reverse :: splitWsAux cs []
    else splitWsAux cs (c :: cur)

/-- Python `s.split()` (no separator argument): whitespace token list. -/
def pySplit (s : String) : List String := splitWsAux s.data []

/-- Drop leading whitespace characters. -/
def dropWs : List Char → List Char
  | [] => []
  | c :: cs => if pyIsSpace c then dropWs cs else c :: cs

/-- Python `s.strip()`: remove leading and trailing whitespace. -/
def pyStrip (s : String) : String :=
  String.mk (dropWs (dropWs s.data).reverse).reverse

/-- Boolean test that `p` is an initial segment of `s` (as char lists). -/
def isPreList : List Char → List Char → Bool
  | [], _ => true
  | _ :: _, [] => false
  | a :: as, b :: bs => (a == b) && isPreList as bs

/-- Python `s.startswith(p)`. -/
def strHasPre (s p : String) : Bool := isPreList p.data s.data

/-- Python `s.endswith(p)`. -/
def pyEndsWith (s p : String) : Bool := isPreList p.data.reverse s.data.reverse

/-- Worker for `str.splitlines()`: split at `\n`, `\r\n` or `\r`, with no
trailing empty line for a final line break. -/
def splitlinesAux : List Char → List Char → List String
  | [], cur => if cur = [] then [] else [String.mk cur.reverse]
  | '\r' :: '\n' :: cs, cur => String.mk cur.reverse :: splitlinesAux cs []
  | '\r' :: cs, cur => String.mk cur.reverse :: splitlinesAux cs []
  | '\n' :: cs, cur => String.mk cur.reverse :: splitlinesAux cs []
  | c :: cs, cur => splitlinesAux cs (c :: cur)

/-- Python `s.splitlines()`. -/
def pySplitlines (s : String) : List String := splitlinesAux s.data []

/-- Python `sep.join(ls)`. -/
def joinWith (sep : String) : List String → String
  | [] => ""
  | [x] => x
  | x :: xs => x ++ sep ++ joinWith sep xs

/-- Worker for splitting a char list on a single separator character,
Python `s.split(sep)` semantics (keeps empty fields). -/
def splitCharAux (sep : Char) : List Char → List Char → List String
  | [], cur => [String.mk cur.reverse]
  | c :: cs, cur =>
    if c = sep then String.mk cur.reverse :: splitCharAux sep cs []
    else splitCharAux sep cs (c :: cur)

/-- Component filter of `posixpath.normpath`: `acc` is the reversed list of
kept components. -/
def normpathComps (initialSlashes : Bool) : List String → List String → List String
  | [], acc => acc.reverse
  | comp :: rest, acc =>
    if comp = "" ∨ comp = "." then normpathComps initialSlashes rest acc
    else if comp ≠ ".." ∨ (initialSlashes = false ∧ acc = []) ∨ (acc ≠ [] ∧ acc.headD "" = "..") then
      normpathComps initialSlashes rest (comp :: acc)
    else if acc ≠ [] then normpathComps initialSlashes rest acc.tail
    else normpathComps initialSlashes rest acc

/-- Python `posixpath.normpath`: collapse `.`/`..`/repeated slashes. -/
def normpath (path : String) : String :=
  if path = "" then "."
  else
    let initialSlashes : Bool := strHasPre path "/"
    let nSlashes : Nat :=
      if initialSlashes then
        if strHasPre path "//" && !(strHasPre path "///") then 2 else 1
      else 0
    let comps := splitCharAux '/' path.data []
    let newComps := normpathComps initialSlashes comps []
    let res := String.mk (List.replicate nSlashes '/') ++ joinWith "/" newComps
    if res = "" then "." else res

/-- Python `posixpath.join` restricted to two arguments, as used by
`os.path.abspath` for relative inputs. -/
def pyJoin (a b : String) : String :=
  if strHasPre b "/" then b
  else if a = "" ∨ pyEndsWith a "/" then a ++ b
  else a ++ "/" ++ b

/-- Python `os.path.abspath` with the process working directory explicit:
join a relative path onto `cwd`, then normalize. -/
def abspath (cwd path : String) : String :=
  if strHasPre path "/" then normpath path else normpath (pyJoin cwd path)

/-- The module constant `DATA_DIR` from `src/main.py`. -/
def DATA_DIR : String := "/data"

/-- The path guard `is_valid_path` from `src/main.py`: compare
`os.path.abspath(path)` against `os.path.abspath(DATA_DIR)` with a plain
string `startswith` test.  `cwd` is the process working directory consulted
by `os.path.abspath` for relative inputs. -/
def is_valid_path (cwd path : String) : Bool :=
  strHasPre (abspath cwd path) (abspath cwd DATA_DIR)

/-- An `HTTPException` value: status code plus detail message. -/
structure HTTPException where
  status_code : Nat
  detail : String
deriving DecidableEq, Repr

deriving instance DecidableEq for Except

/-- Outcome of `subprocess.run(command, shell=True, ...)`: either the
process ran with an exit status and captured output, or spawning raised
with some message. -/
inductive SpawnOutcome where
  | ran (returncode : Int) (stdout stderr : String)
  | raised (msg : String)
deriving DecidableEq, Repr

/-- The denylist test on line 51 of `src/main.py`:
`"rm" in tokens or "unlink" in tokens`. -/
def destructive (command : String) : Bool :=
  (pySplit command).contains "rm" || (pySplit command).contains "unlink"

/-- The scope test on line 55 of `src/main.py`:
`any(token.startswith(DATA_DIR) for token in tokens)`, with the root
directory as an explicit argument. -/
def inScopeWith (root command : String) : Bool :=
  (pySplit command).any (fun t => strHasPre t root)

/-- `run_command` from `src/main.py`, with the configured data root and the
subprocess behaviour (`spawn`) as explicit arguments.  Raised
`HTTPException`s become `Except.error`; the `try` block maps a non-zero
exit status to a 500 carrying the trimmed stderr and a spawn exception to a
500 carrying its description. -/
def run_command_with (root : String) (spawn : String → SpawnOutcome) (command : String) :
    Except HTTPException String :=
  if destructive command then Except.error ⟨400, "File deletion is not allowed"⟩
  else if !(inScopeWith root command) then
    Except.error ⟨400, "Access outside DATA_DIR is not allowed"⟩
  else
    match spawn command with
    | SpawnOutcome.ran rc stdout stderr =>
      if rc = 0 then Except.ok (pyStrip stdout)
      else Except.error ⟨500, pyStrip stderr⟩
    | SpawnOutcome.raised msg => Except.error ⟨500, msg⟩

/-- `run_command` at the module's configured root `DATA_DIR`. -/
def run_command (spawn : String → SpawnOutcome) (command : String) :
    Except HTTPException String :=
  run_command_with DATA_DIR spawn command

/-- Lines 87-89 of `src/main.py`: when the command both starts and ends
with the fence marker, drop the first and last lines and strip the rest. -/
def strip_fences (command : String) : String :=
  if strHasPre command "```" && pyEndsWith command "```" then
    pyStrip (joinWith "\n" ((pySplitlines command).drop 1).dropLast)
  else command

/-- One row of the `tasks` table: `(task, status, output)` (the
autoincrement id is the position in the history list). -/
structure TaskRecord where
  task : String
  status : String
  output : String
deriving DecidableEq, Repr

/-- Outcome of the AI-proxy round trip in `run_task`: `raisedOther` covers
exceptions that are not `HTTPException` (network failure, JSON decode
failure, a malformed `choices` entry); `noChoices` is a JSON body without a
`"choices"` key (the code raises an `HTTPException` for it); `content` is
the returned command text. -/
inductive OracleOutcome where
  | raisedOther (msg : String)
  | noChoices (statusCode : Nat) (body : String)
  | content (text : String)
deriving DecidableEq, Repr

/-- Outcome of the SQLite insert of the task record. -/
inductive WriteOutcome where
  | ok
  | failed (msg : String)
deriving DecidableEq, Repr

/-- What the `/run` endpoint produces: a JSON response with a `status`
field, or an exception that escaped the handler (`uncaught`). -/
inductive RunResponse where
  | success (output : String)
  | error (message : String)
  | uncaught (msg : String)
deriving DecidableEq, Repr

/-- The `/run` dispatcher `run_task` from `src/main.py`.  Returns the
response together with the final task history.  Only `HTTPException` is
caught by the handler; any other exception escapes as `uncaught`.  The
insert happens only on the success path, with the original task text,
status `"success"` and the executor's output. -/
def run_task (oracle : OracleOutcome) (spawn : String → SpawnOutcome)
    (write : WriteOutcome) (history : List TaskRecord) (task : String) :
    RunResponse × List TaskRecord :=
  match oracle with
  | OracleOutcome.raisedOther msg => (RunResponse.uncaught msg, history)
  | OracleOutcome.noChoices _ body =>
    (RunResponse.error ("Invalid AI Proxy response: " ++ body), history)
  | OracleOutcome.content text =>
    let command := strip_fences (pyStrip text)
    match run_command spawn command with
    | Except.error e => (RunResponse.error e.detail, history)
    | Except.ok output =>
      match write with
      | WriteOutcome.failed msg => (RunResponse.uncaught msg, history)
      | WriteOutcome.ok =>
        (RunResponse.success output, history ++ [⟨task, "success", output⟩])

/-- State of a file as seen by the `/read` handler. -/
inductive FileState where
  | absent
  | readable (content : String)
  | unreadable (msg : String)
deriving DecidableEq, Repr

/-- A Python exception inside the `/read` handler's `try` block: either an
`HTTPException` or an OS-level error from `open`/`read`. -/
inductive PyExc where
  | http (e : HTTPException)
  | os (msg : String)
deriving DecidableEq, Repr

/-- Python `str(e)` for the exceptions of `PyExc`: starlette's
`HTTPException.__str__` renders `"{status_code}: {detail}"`. -/
def strPyExc : PyExc → String
  | PyExc.http e => toString e.status_code ++ ": " ++ e.detail
  | PyExc.os msg => msg

/-- Response of the `/read` endpoint: a 200 JSON body or an HTTP error. -/
inductive ReadResponse where
  | success (content : String)
  | httpError (code : Nat) (detail : String)
deriving DecidableEq, Repr

/-- The `/read` handler `read_file` from `src/main.py`, with the filesystem
as an explicit map.  The path-guard rejection is raised outside the `try`
and yields a 400.  Inside the `try`, a missing file raises
`HTTPException(404)`, which the `except Exception` clause catches and
re-raises as a 500 with `str(e)` as its detail. -/
def read_file (cwd : String) (fs : String → FileState) (path : String) : ReadResponse :=
  if !(is_valid_path cwd path) then
    ReadResponse.httpError 400 "Access outside data directory is not allowed"
  else
    let tryBlock : Except PyExc String :=
      match fs path with
      | FileState.absent => Except.error (PyExc.http ⟨404, "File not found"⟩)
      | FileState.readable content => Except.ok content
      | FileState.unreadable msg => Except.error (PyExc.os msg)
    match tryBlock with
    | Except.ok content => ReadResponse.success content
    | Except.error e => ReadResponse.httpError 500 (strPyExc e)


/-! Helper lemmas shared by the claim theorems. -/

/-- For an absolute argument, `abspath` ignores the working directory. -/
theorem abspath_of_abs (cwd path : String) (h : strHasPre path "/" = true) :
    abspath cwd path = normpath path := by
  unfold abspath
  rw [if_pos h]

/-- The path guard on an absolute path reduces to a `startswith` test of
its normalized form against `"/data"`. -/
theorem is_valid_path_abs (cwd path : String) (h : strHasPre path "/" = true) :
    is_valid_path cwd path = strHasPre (normpath path) "/data" := by
  unfold is_valid_path DATA_DIR
  rw [abspath_of_abs cwd path h, abspath_of_abs cwd "/data" (by decide),
    (by decide : normpath "/data" = "/data")]

/-- The denylist test fires exactly when `rm` or `unlink` is a token. -/
theorem destructive_iff (command : String) :
    destructive command = true ↔ ("rm" ∈ pySplit command ∨ "unlink" ∈ pySplit command) := by
  unfold destructive
  rw [Bool.or_eq_true]
  rw [show (pySplit command).contains "rm" = List.elem "rm" (pySplit command) from rfl,
    show (pySplit command).contains "unlink" = List.elem "unlink" (pySplit command) from rfl]
  rw [List.elem_iff, List.elem_iff]

/-- Without a denylisted token, `run_command_with` can never produce the
deletion-rejection error. -/
theorem run_command_with_not_deletion (root : String) (spawn : String → SpawnOutcome)
    (command : String) (hd : destructive command = false) :
    run_command_with root spawn command ≠
      Except.error ⟨400, "File deletion is not allowed"⟩ := by
  unfold run_command_with
  rw [hd]
  cases hs : inScopeWith root command with
  | false => simp
  | true =>
    cases hsp : spawn command with
    | ran rc stdout stderr =>
      by_cases hrc : rc = 0 <;> simp [hrc]
    | raised msg => simp

/-- Claim C1: the Path Guard is claimed to be a strict prefix check that
rejects sibling directories sharing the root as a string prefix.  The code
uses a bare `startswith` without a separator, so `/data-evil/x.txt` is
accepted (first conjunct), contradicting the claim; traversal out of the
root (`/data/../etc/passwd`) and genuine members behave as described. -/
theorem C1_path_guard_eval : ∀ cwd : String,
    is_valid_path cwd "/data-evil/x.txt" = true
    ∧ is_valid_path cwd "/data/../etc/passwd" = false
    ∧ is_valid_path cwd "/data/x.txt" = true
    ∧ is_valid_path cwd "/data" = true := by
  intro cwd
  refine ⟨?_, ?_, ?_, ?_⟩ <;> rw [is_valid_path_abs cwd _ (by decide)] <;> decide

/-- Claim C8: `/read` is claimed to answer 404 for a missing file inside
the root.  The code raises the 404 `HTTPException` inside its `try` block,
so `except Exception` swallows it and re-raises a 500 whose detail is the
stringified 404 (first conjunct).  The other branches behave as claimed:
out-of-root paths get a 400 decided without touching the filesystem,
readable files are returned, and read errors become a 500. -/
theorem C8_read_eval :
    read_file "/" (fun _ => FileState.absent) "/data/missing.txt" =
      ReadResponse.httpError 500 "404: File not found"
    ∧ (∀ (cwd : String) (fs : String → FileState),
        read_file cwd fs "/etc/passwd" =
          ReadResponse.httpError 400 "Access outside data directory is not allowed")
    ∧ read_file "/" (fun _ => FileState.readable "hello") "/data/notes.txt" =
        ReadResponse.success "hello"
    ∧ read_file "/" (fun _ => FileState.unreadable "Permission denied") "/data/locked.txt" =
        ReadResponse.httpError 500 "Permission denied" := by
  refine ⟨by decide, ?_, by decide, by decide⟩
  intro cwd fs
  have h : is_valid_path cwd "/etc/passwd" = false := by
    rw [is_valid_path_abs cwd _ (by decide)]; decide
  unfold read_file
  rw [h]
  rfl

/-- Claim C2 counterexample: an authorized dispatch whose subprocess exits
non-zero returns the error response but appends NO task record at all,
while the claim asserts exactly one record with status `"error"` is
appended. -/
theorem C2_cex :
    run_task (OracleOutcome.content "cat /data/x.txt")
        (fun _ => SpawnOutcome.ran 1 "" " boom ") WriteOutcome.ok [] "list files" =
      (RunResponse.error "boom", []) := by decide

/-- Claim C2 amended: execution failures are NOT recorded; when
`run_command` raises an `HTTPException`, the dispatcher returns the error
response with the exception's detail and leaves the history unchanged. -/
theorem C2_amended_thm :
    ∀ (task text : String) (spawn : String → SpawnOutcome) (write : WriteOutcome)
      (history : List TaskRecord) (e : HTTPException),
      run_command spawn (strip_fences (pyStrip text)) = Except.error e →
      run_task (OracleOutcome.content text) spawn write history task =
        (RunResponse.error e.detail, history) := by
  intro task text spawn write history e h
  simp only [run_task]
  rw [h]

/-- Witness for the amended C2 theorem at a concrete failing dispatch. -/
theorem C2_witness :
    run_task (OracleOutcome.content "cat /data/a.txt") (fun _ => SpawnOutcome.ran 2 "" "fail")
        WriteOutcome.ok [⟨"old", "success", "x"⟩] "t2" =
      (RunResponse.error "fail", [⟨"old", "success", "x"⟩]) :=
  C2_amended_thm "t2" "cat /data/a.txt" _ _ _ ⟨500, "fail"⟩ (by decide)

/-- Claim C9 counterexample: a dispatch whose history write raises a
(non-`HTTPException`) SQLite error escapes the handler uncaught instead of
being converted to the uniform error shape. -/
theorem C9_cex :
    run_task (OracleOutcome.content "cat /data/x.txt")
        (fun _ => SpawnOutcome.ran 0 "hi" "") (WriteOutcome.failed "disk I/O error") [] "t" =
      (RunResponse.uncaught "disk I/O error", []) := by decide

/-- Claim C9 amended: only errors raised as `HTTPException` (an oracle body
without `choices`, authorization rejection, execution failure) are caught
and converted to the uniform error response; other exceptions escape. -/
theorem C9_amended_thm :
    (∀ (sc : Nat) (body task : String) (spawn : String → SpawnOutcome)
        (write : WriteOutcome) (history : List TaskRecord),
        run_task (OracleOutcome.noChoices sc body) spawn write history task =
          (RunResponse.error ("Invalid AI Proxy response: " ++ body), history))
    ∧ (∀ (task text : String) (spawn : String → SpawnOutcome) (write : WriteOutcome)
        (history : List TaskRecord) (e : HTTPException),
        run_command spawn (strip_fences (pyStrip text)) = Except.error e →
        run_task (OracleOutcome.content text) spawn write history task =
          (RunResponse.error e.detail, history))
    ∧ (∀ (msg task : String) (spawn : String → SpawnOutcome) (write : WriteOutcome)
        (history : List TaskRecord),
        run_task (OracleOutcome.raisedOther msg) spawn write history task =
          (RunResponse.uncaught msg, history)) := by
  refine ⟨fun sc body task spawn write history => rfl, ?_,
    fun msg task spawn write history => rfl⟩
  intro task text spawn write history e h
  simp only [run_task]
  rw [h]

/-- Witness for the amended C9 theorem: a denylisted command is rejected
and surfaces as the uniform error response. -/
theorem C9_witness :
    run_task (OracleOutcome.content "rm /data/x.txt") (fun _ => SpawnOutcome.raised "unused")
        WriteOutcome.ok [] "t" = (RunResponse.error "File deletion is not allowed", []) :=
  C9_amended_thm.2.1 "t" "rm /data/x.txt" (fun _ => SpawnOutcome.raised "unused")
    WriteOutcome.ok [] ⟨400, "File deletion is not allowed"⟩ (by decide)

/-- Claim C3: a dispatch whose authorized command runs with exit status 0
appends exactly one record carrying the original task text, status
`"success"` and the trimmed stdout; a dispatch rejected at authorization
(denylisted verb or out-of-scope) leaves the history unchanged and its
outcome is independent of the subprocess and of the store (no subprocess
runs, no write happens). -/
theorem C3_roundtrip :
    (∀ (task text : String) (spawn : String → SpawnOutcome) (history : List TaskRecord)
        (stdout stderr : String),
        destructive (strip_fences (pyStrip text)) = false →
        inScopeWith DATA_DIR (strip_fences (pyStrip text)) = true →
        spawn (strip_fences (pyStrip text)) = SpawnOutcome.ran 0 stdout stderr →
        run_task (OracleOutcome.content text) spawn WriteOutcome.ok history task =
          (RunResponse.success (pyStrip stdout),
            history ++ [⟨task, "success", pyStrip stdout⟩]))
    ∧ (∀ (task text : String) (spawn spawn' : String → SpawnOutcome)
        (write write' : WriteOutcome) (history : List TaskRecord),
        (destructive (strip_fences (pyStrip text)) = true ∨
          inScopeWith DATA_DIR (strip_fences (pyStrip text)) = false) →
        run_task (OracleOutcome.content text) spawn write history task =
          run_task (OracleOutcome.content text) spawn' write' history task
        ∧ (run_task (OracleOutcome.content text) spawn write history task).2 = history) := by
  constructor
  · intro task text spawn history stdout stderr hd hs hsp
    simp [run_task, run_command, run_command_with, hd, hs, hsp]
  · intro task text spawn spawn' write write' history h
    rcases h with hd | hs
    · constructor <;> simp [run_task, run_command, run_command_with, hd]
    · cases hd : destructive (strip_fences (pyStrip text)) with
      | true => constructor <;> simp [run_task, run_command, run_command_with, hd]
      | false => constructor <;> simp [run_task, run_command, run_command_with, hd, hs]

/-- Witness for C3 at concrete dispatches: a successful fenced command
appends exactly its one success record, and an out-of-scope command's
outcome does not depend on the subprocess or the store. -/
theorem C3_witness :
    run_task (OracleOutcome.content "```bash\ncat /data/x.txt\n```")
        (fun _ => SpawnOutcome.ran 0 " contents\n" "") WriteOutcome.ok [] "show x" =
      (RunResponse.success "contents", [⟨"show x", "success", "contents"⟩])
    ∧ run_task (OracleOutcome.content "echo hi") (fun _ => SpawnOutcome.raised "a")
        WriteOutcome.ok [] "greet" =
      run_task (OracleOutcome.content "echo hi") (fun _ => SpawnOutcome.ran 0 "b" "c")
        (WriteOutcome.failed "d") [] "greet" := by
  constructor
  · exact (C3_roundtrip.1 "show x" "```bash\ncat /data/x.txt\n```"
      (fun _ => SpawnOutcome.ran 0 " contents\n" "") [] " contents\n" ""
      (by decide) (by decide) rfl).trans (by decide)
  · exact (C3_roundtrip.2 "greet" "echo hi" (fun _ => SpawnOutcome.raised "a")
      (fun _ => SpawnOutcome.ran 0 "b" "c") WriteOutcome.ok (WriteOutcome.failed "d")
      [] (Or.inr (by decide))).1

/-- Claim C4: the deletion rejection fires exactly when a whitespace token
equals `rm` or `unlink`, at any position; tokens merely containing a verb
(such as `rm-old`) do not trigger it. -/
theorem C4_denylist_iff :
    ∀ (root : String) (spawn : String → SpawnOutcome) (command : String),
      run_command_with root spawn command = Except.error ⟨400, "File deletion is not allowed"⟩
      ↔ ("rm" ∈ pySplit command ∨ "unlink" ∈ pySplit command) := by
  intro root spawn command
  rw [← destructive_iff command]
  constructor
  · intro h
    cases hd : destructive command with
    | true => rfl
    | false => exact absurd h (run_command_with_not_deletion root spawn command hd)
  · intro hd
    simp [run_command_with, hd]

/-- Claim C5: with no denylisted token, the out-of-scope rejection fires
exactly when no token starts with the literal root string; `echo hi`
against root `./data` is rejected, while `cat ./data/x.txt` is permitted
and the executor is invoked on the original command string. -/
theorem C5_scope_check :
    (∀ (root : String) (spawn : String → SpawnOutcome) (command : String),
        destructive command = false →
        (run_command_with root spawn command =
            Except.error ⟨400, "Access outside DATA_DIR is not allowed"⟩
          ↔ ¬ ∃ t, t ∈ pySplit command ∧ strHasPre t root = true))
    ∧ (∀ spawn : String → SpawnOutcome,
        run_command_with "./data" spawn "echo hi" =
          Except.error ⟨400, "Access outside DATA_DIR is not allowed"⟩)
    ∧ (∀ (spawn : String → SpawnOutcome) (stdout stderr : String),
        spawn "cat ./data/x.txt" = SpawnOutcome.ran 0 stdout stderr →
        run_command_with "./data" spawn "cat ./data/x.txt" = Except.ok (pyStrip stdout)) := by
  refine ⟨?_, ?_, ?_⟩
  · intro root spawn command hd
    have hiff : inScopeWith root command = true ↔
        ∃ t, t ∈ pySplit command ∧ strHasPre t root = true := by
      unfold inScopeWith
      exact List.any_eq_true
    cases hs : inScopeWith root command with
    | false =>
      rw [← hiff]
      simp [run_command_with, hd, hs]
    | true =>
      rw [← hiff, hs]
      simp only [not_true_eq_false, iff_false]
      unfold run_command_with
      rw [hd, hs]
      cases hsp : spawn command with
      | ran rc stdout stderr => by_cases hrc : rc = 0 <;> simp [hrc]
      | raised msg => simp
  · intro spawn
    unfold run_command_with
    rw [show destructive "echo hi" = false from by decide,
      show inScopeWith "./data" "echo hi" = false from by decide]
    rfl
  · intro spawn stdout stderr h
    unfold run_command_with
    rw [show destructive "cat ./data/x.txt" = false from by decide,
      show inScopeWith "./data" "cat ./data/x.txt" = true from by decide, h]
    rfl

/-- Witness for C5: concrete rejected and permitted commands. -/
theorem C5_witness :
    run_command_with "./data" (fun _ => SpawnOutcome.raised "x") "echo hi" =
      Except.error ⟨400, "Access outside DATA_DIR is not allowed"⟩
    ∧ run_command_with "./data" (fun _ => SpawnOutcome.ran 0 " ok \n" "") "cat ./data/x.txt" =
      Except.ok "ok"
    ∧ run_command_with "/data" (fun _ => SpawnOutcome.raised "y") "echo hi" =
      Except.error ⟨400, "Access outside DATA_DIR is not allowed"⟩ := by
  refine ⟨?_, ?_, ?_⟩
  · exact C5_scope_check.2.1 (fun _ => SpawnOutcome.raised "x")
  · exact (C5_scope_check.2.2 (fun _ => SpawnOutcome.ran 0 " ok \n" "") " ok \n" "" rfl).trans
      (by decide)
  · exact (C5_scope_check.1 "/data" (fun _ => SpawnOutcome.raised "y") "echo hi"
      (by decide)).mpr (by decide)

/-- Claim C6: for an authorized command, the executor returns the trimmed
stdout exactly when the exit status is zero, returns a 500 with the trimmed
stderr on a non-zero exit, returns a 500 with the error's description when
spawning raises, and its outcome depends only on the single spawn outcome
for that command (no retries). -/
theorem C6_executor :
    ∀ (spawn : String → SpawnOutcome) (command : String),
      destructive command = false → inScopeWith DATA_DIR command = true →
      (∀ (rc : Int) (stdout stderr : String),
          spawn command = SpawnOutcome.ran rc stdout stderr →
          (run_command spawn command = Except.ok (pyStrip stdout) ↔ rc = 0)
          ∧ (rc ≠ 0 → run_command spawn command = Except.error ⟨500, pyStrip stderr⟩))
      ∧ (∀ msg : String, spawn command = SpawnOutcome.raised msg →
          run_command spawn command = Except.error ⟨500, msg⟩)
      ∧ (∀ spawn' : String → SpawnOutcome, spawn' command = spawn command →
          run_command spawn' command = run_command spawn command) := by
  intro spawn command hd hs
  refine ⟨?_, ?_, ?_⟩
  · intro rc stdout stderr hsp
    constructor
    · by_cases hrc : rc = 0 <;> simp [run_command, run_command_with, hd, hs, hsp, hrc]
    · intro hrc
      simp [run_command, run_command_with, hd, hs, hsp, hrc]
  · intro msg hsp
    simp [run_command, run_command_with, hd, hs, hsp]
  · intro spawn' h
    unfold run_command run_command_with
    rw [h]

/-- Witness for C6 at concrete spawn outcomes. -/
theorem C6_witness :
    run_command (fun _ => SpawnOutcome.ran 0 "  hi\n" "") "cat /data/x.txt" = Except.ok "hi"
    ∧ run_command (fun _ => SpawnOutcome.ran 1 "" " no \n") "cat /data/x.txt" =
        Except.error ⟨500, "no"⟩
    ∧ run_command (fun _ => SpawnOutcome.raised "spawn failed") "cat /data/x.txt" =
        Except.error ⟨500, "spawn failed"⟩ := by
  refine ⟨?_, ?_, ?_⟩
  · exact (((C6_executor (fun _ => SpawnOutcome.ran 0 "  hi\n" "") "cat /data/x.txt"
      (by decide) (by decide)).1 0 "  hi\n" "" rfl).1.mpr rfl).trans (by decide)
  · exact (((C6_executor (fun _ => SpawnOutcome.ran 1 "" " no \n") "cat /data/x.txt"
      (by decide) (by decide)).1 1 "" " no \n" rfl).2 (by decide)).trans (by decide)
  · exact (C6_executor (fun _ => SpawnOutcome.raised "spawn failed") "cat /data/x.txt"
      (by decide) (by decide)).2.1 "spawn failed" rfl

/-- Claim C10: the denylist check runs before the scope check, so any
command containing an `rm` or `unlink` token is rejected with the
file-deletion error even when no token references the data root, and the
out-of-scope rejection is never produced for it. -/
theorem C10_order :
    ∀ (root : String) (spawn : String → SpawnOutcome) (command : String),
      ("rm" ∈ pySplit command ∨ "unlink" ∈ pySplit command) →
      run_command_with root spawn command = Except.error ⟨400, "File deletion is not allowed"⟩
      ∧ run_command_with root spawn command ≠
          Except.error ⟨400, "Access outside DATA_DIR is not allowed"⟩ := by
  intro root spawn command h
  have hd : destructive command = true := (destructive_iff command).mpr h
  constructor <;> simp [run_command_with, hd]

/-- Witness for C10: `rm` on a path outside the root still yields the
deletion rejection, not the scope rejection. -/
theorem C10_witness :
    run_command_with "/data" (fun _ => SpawnOutcome.raised "unused2") "rm /tmp/x" =
      Except.error ⟨400, "File deletion is not allowed"⟩ :=
  (C10_order "/data" (fun _ => SpawnOutcome.raised "unused2") "rm /tmp/x"
    (Or.inl (by decide))).1

/-- Claim C7 counterexample: the code decides the wrapper by `startswith`
and `endswith` on the whole text, so a command whose last line merely ends
with the marker (and is not a fence marker line) is still stripped — here
to the empty string — although the claim says a command without a
leading-and-trailing wrapper pair passes through unchanged. -/
theorem C7_cex :
    strip_fences "```bash\nls /data ```" = ""
    ∧ strip_fences "```bash\nls /data ```" ≠ "```bash\nls /data ```"
    ∧ pySplitlines "```bash\nls /data ```" = ["```bash", "ls /data ```"]
    ∧ strHasPre "ls /data ```" "```" = false := by decide

/-- A list is an initial segment of itself followed by anything. -/
theorem isPreList_self_append (p r : List Char) : isPreList p (p ++ r) = true := by
  induction p with
  | nil => rfl
  | cons a as ih => simp [isPreList, ih]

/-- An initial-segment test survives extension on the right. -/
theorem isPreList_append_of (p q r : List Char) (h : isPreList p q = true) :
    isPreList p (q ++ r) = true := by
  induction p generalizing q with
  | nil => rfl
  | cons a as ih =>
    cases q with
    | nil => exact absurd h (by simp [isPreList])
    | cons b bs =>
      simp only [isPreList, List.cons_append, Bool.and_eq_true] at h ⊢
      exact ⟨h.1, ih bs h.2⟩

/-- `splitlinesAux` emits the accumulated line at a line feed. -/
theorem splitlinesAux_nl (cs cur : List Char) :
    splitlinesAux ('\n' :: cs) cur = String.mk cur.reverse :: splitlinesAux cs [] := rfl

/-- `splitlinesAux` moves an ordinary character into the accumulator. -/
theorem splitlinesAux_cons (c : Char) (cs cur : List Char) (h1 : c ≠ '\r') (h2 : c ≠ '\n') :
    splitlinesAux (c :: cs) cur = splitlinesAux cs (c :: cur) := by
  simp [splitlinesAux, h1, h2]

/-- `splitlinesAux` flushes a nonempty final line without a break. -/
theorem splitlinesAux_flush :
    ∀ a : List Char, (∀ c ∈ a, c ≠ '\n' ∧ c ≠ '\r') → ∀ cur : List Char,
      cur.reverse ++ a ≠ [] → splitlinesAux a cur = [String.mk (cur.reverse ++ a)] := by
  intro a
  induction a with
  | nil =>
    intro _ cur hne
    rw [List.append_nil] at hne ⊢
    have hc : ¬ cur = [] := fun h => hne (by rw [h]; rfl)
    simp [splitlinesAux, hc]
  | cons c a ih =>
    intro ha cur _
    have hc := ha c (by simp)
    rw [splitlinesAux_cons c a cur hc.2 hc.1,
      ih (fun x hx => ha x (by simp [hx])) (c :: cur) (by simp)]
    congr 2
    simp

/-- `splitlinesAux` emits the accumulated prefix at the first `\n` break. -/
theorem splitlinesAux_break (rest : List Char) :
    ∀ a : List Char, (∀ c ∈ a, c ≠ '\n' ∧ c ≠ '\r') → ∀ cur : List Char,
      splitlinesAux (a ++ '\n' :: rest) cur =
        String.mk (cur.reverse ++ a) :: splitlinesAux rest [] := by
  intro a
  induction a with
  | nil =>
    intro _ cur
    rw [List.nil_append, splitlinesAux_nl, List.append_nil]
  | cons c a ih =>
    intro ha cur
    have hc := ha c (by simp)
    rw [List.cons_append, splitlinesAux_cons c _ cur hc.2 hc.1,
      ih (fun x hx => ha x (by simp [hx])) (c :: cur),
      show (c :: cur).reverse ++ a = cur.reverse ++ c :: a by simp]

/-- Splitting the newline-join of newline-free lines returns the lines, as
long as the final line is nonempty. -/
theorem pySplitlines_joinWith :
    ∀ ls : List String, (∀ l ∈ ls, ∀ c ∈ l.data, c ≠ '\n' ∧ c ≠ '\r') →
      ls.getLast? ≠ some "" → ls ≠ [] → pySplitlines (joinWith "\n" ls) = ls := by
  intro ls
  induction ls with
  | nil => intro _ _ h; exact absurd rfl h
  | cons a t ih =>
    intro h hlast _
    cases t with
    | nil =>
      have ha : a ≠ "" := fun h0 => hlast (by rw [h0]; rfl)
      have hd : a.data ≠ [] := by
        intro h0
        apply ha
        cases a with
        | mk d => cases h0; rfl
      unfold pySplitlines
      rw [show joinWith "\n" [a] = a from rfl,
        splitlinesAux_flush a.data (h a (by simp)) [] (by simpa using hd)]
      simp
    | cons b t2 =>
      unfold pySplitlines
      rw [show joinWith "\n" (a :: b :: t2) = a ++ "\n" ++ joinWith "\n" (b :: t2) from rfl,
        show (a ++ "\n" ++ joinWith "\n" (b :: t2)).data
          = a.data ++ '\n' :: (joinWith "\n" (b :: t2)).data by
          show (a.data ++ ['\n']) ++ (joinWith "\n" (b :: t2)).data
            = a.data ++ '\n' :: (joinWith "\n" (b :: t2)).data
          simp,
        splitlinesAux_break _ a.data (h a (by simp)) []]
      have ht := ih (fun l hl => h l (by simp [hl]))
        (by rw [← List.getLast?_cons_cons (a := a)]; exact hlast) (by simp)
      unfold pySplitlines at ht
      rw [ht]
      rfl

/-- `joinWith` over a cons with a nonempty tail. -/
theorem joinWith_cons (sep x : String) (ys : List String) (h : ys ≠ []) :
    joinWith sep (x :: ys) = x ++ sep ++ joinWith sep ys := by
  cases ys with
  | nil => exact absurd rfl h
  | cons b t => rfl

/-- The newline-join of lines ending in a fence marker line ends with the
fence marker. -/
theorem joinWith_ends_fence (xs : List String) :
    pyEndsWith (joinWith "\n" (xs ++ ["```"])) "```" = true := by
  induction xs with
  | nil => decide
  | cons a t ih =>
    rw [List.cons_append, joinWith_cons "\n" a (t ++ ["```"]) (by simp)]
    unfold pyEndsWith at ih ⊢
    rw [show (a ++ "\n" ++ joinWith "\n" (t ++ ["```"])).data
        = (a ++ "\n").data ++ (joinWith "\n" (t ++ ["```"])).data from rfl,
      List.reverse_append]
    exact isPreList_append_of _ _ _ ih

/-- The newline-join of lines whose first line starts with the fence marker
starts with the fence marker. -/
theorem joinWith_starts_fence (tag : String) (ys : List String) (h : ys ≠ []) :
    strHasPre (joinWith "\n" (("```" ++ tag) :: ys)) "```" = true := by
  rw [joinWith_cons "\n" _ ys h]
  unfold strHasPre
  rw [show ("```" ++ tag ++ "\n" ++ joinWith "\n" ys).data
      = "```".data ++ (tag.data ++ '\n' :: (joinWith "\n" ys).data) by
      show (("```".data ++ tag.data) ++ ['\n']) ++ (joinWith "\n" ys).data
        = "```".data ++ (tag.data ++ '\n' :: (joinWith "\n" ys).data)
      simp]
  exact isPreList_self_append _ _

/-- Claim C7 amended: the wrapper is detected by testing only that the
whole command text starts with the fence marker and ends with it; when the
test fails the command passes through unchanged, and when a genuine
wrapper is present — a leading fence marker line with an optional language
tag, interior lines, and a trailing fence marker line — the two wrapper
lines are stripped and the interior is returned (whitespace-trimmed), so
embedded marker substrings in interior lines survive.  (The test is NOT an
exact line check: a text merely starting and ending with the marker is
also stripped of its first and last lines, see the counterexample.) -/
theorem C7_normalize :
    (∀ s : String, (strHasPre s "```" && pyEndsWith s "```") = false → strip_fences s = s)
    ∧ (∀ (tag : String) (mid : List String),
        (∀ c ∈ tag.data, c ≠ '\n' ∧ c ≠ '\r') →
        (∀ l ∈ mid, ∀ c ∈ l.data, c ≠ '\n' ∧ c ≠ '\r') →
        strip_fences (joinWith "\n" (("```" ++ tag) :: (mid ++ ["```"]))) =
          pyStrip (joinWith "\n" mid)) := by
  constructor
  · intro s h
    unfold strip_fences
    rw [h]
    rfl
  · intro tag mid htag hmid
    have hstart := joinWith_starts_fence tag (mid ++ ["```"]) (by simp)
    have hends : pyEndsWith (joinWith "\n" (("```" ++ tag) :: (mid ++ ["```"]))) "```" = true := by
      rw [show ("```" ++ tag) :: (mid ++ ["```"]) = (("```" ++ tag) :: mid) ++ ["```"] from rfl]
      exact joinWith_ends_fence (("```" ++ tag) :: mid)
    have hsplit : pySplitlines (joinWith "\n" (("```" ++ tag) :: (mid ++ ["```"]))) =
        ("```" ++ tag) :: (mid ++ ["```"]) := by
      apply pySplitlines_joinWith
      · intro l hl c hc
        rcases List.mem_cons.mp hl with rfl | hl2
        · rw [show ("```" ++ tag).data = "```".data ++ tag.data from rfl] at hc
          rcases List.mem_append.mp hc with hc1 | hc2
          · exact (by decide : ∀ x ∈ ("```" : String).data, x ≠ '\n' ∧ x ≠ '\r') c hc1
          · exact htag c hc2
        · rcases List.mem_append.mp hl2 with hm | he
          · exact hmid l hm c hc
          · rw [List.mem_singleton.mp he] at hc
            exact (by decide : ∀ x ∈ ("```" : String).data, x ≠ '\n' ∧ x ≠ '\r') c hc
      · rw [show ("```" ++ tag) :: (mid ++ ["```"]) = (("```" ++ tag) :: mid) ++ ["```"] from rfl,
          List.getLast?_concat]
        simp
      · simp
    unfold strip_fences
    rw [hstart, hends, hsplit]
    simp

/-- Witness for C7: a concrete fenced command with a language tag is
stripped to its interior line, and an unfenced command is unchanged. -/
theorem C7_witness :
    strip_fences (joinWith "\n" (("```" ++ "bash") :: (["cat /data/report.txt"] ++ ["```"]))) =
      pyStrip (joinWith "\n" ["cat /data/report.txt"])
    ∧ strip_fences "ls /data" = "ls /data" := by
  constructor
  · exact C7_normalize.2 "bash" ["cat /data/report.txt"] (by decide) (by decide)
  · exact C7_normalize.1 "ls /data" (by decide)
